import Mathlib

/-!
Shallow embedding of `src/backend/controller/user.js` from the
multi-vendor e-commerce backend: the user-account and referral-code
route handlers, modelled as pure functions over an explicit database
state.  Request-body fields that may be absent in JSON are `Option`
values; JavaScript truthiness on strings is modelled by `truthy`.
The persistence layer (Mongoose models) and the referral utilities are
not part of the corpus; the definitions standing in for them carry a
`Modelled from the spec:` doc comment.
-/

namespace UserController

/-- JavaScript truthiness of an optional string request field:
`undefined` and the empty string are falsy. -/
def truthy : Option String → Bool
  | none => false
  | some s => !s.isEmpty

/-- JavaScript `String.prototype.toUpperCase`, character by character
(PAN card strings are ASCII, where `Char.toUpper` agrees with it). -/
def jsToUpper (s : String) : String := String.mk (s.data.map Char.toUpper)

/-- Modelled from the spec: password hashing performed by the persistence
layer on save (`src/backend/model/user.js` is not in the corpus).  An
injective stand-in for the hash function. -/
def hashPw (s : String) : String := "bcrypt$" ++ s

/-- Modelled from the spec: `user.comparePassword` from the User model
(not in the corpus) — a candidate password matches iff its hash equals
the stored hash; an absent candidate never matches. -/
def comparePassword (cand stored : Option String) : Bool :=
  match cand with
  | some c => stored == some (hashPw c)
  | none => false

/-- An embedded address sub-document of a user. -/
structure Address where
  _id : Nat
  addressType : String
  address1 : String
  city : String
deriving Repr, DecidableEq

/-- A persisted user document.  `password` holds the stored hash. -/
structure User where
  _id : Nat
  name : Option String
  email : Option String
  password : Option String
  phoneNumber : Option String
  panCard : Option String
  gender : Option String
  avatar : String
  referralCode : String
  referredBy : Option Nat
  addresses : List Address
deriving Repr, DecidableEq

/-- One usage entry on a referral code: who redeemed it. -/
structure UsageEntry where
  userId : Nat
  userName : Option String
deriving Repr, DecidableEq

/-- A persisted referral-code document mapping a code to its owning user. -/
structure RefCode where
  code : String
  userId : Nat
  userName : Option String
  usedBy : List UsageEntry
deriving Repr, DecidableEq

/-- The database state: the two document stores plus a fresh-id counter. -/
structure DB where
  users : List User
  codes : List RefCode
  nextId : Nat
deriving Repr, DecidableEq

/-- `User.findOne({email})` for a concrete email string. -/
def findUserByEmail (db : DB) (e : String) : Option User :=
  db.users.find? (fun u => u.email == some e)

/-- `User.findOne({panCard})` for a concrete PAN string. -/
def findUserByPan (db : DB) (p : String) : Option User :=
  db.users.find? (fun u => u.panCard == some p)

/-- `User.findById`. -/
def findById (db : DB) (uid : Nat) : Option User :=
  db.users.find? (fun u => u._id == uid)

/-- `ReferralCode.findOne({code})`. -/
def findCode (db : DB) (c : String) : Option RefCode :=
  db.codes.find? (fun r => r.code == c)

/-- Persisting a modified user document (`user.save()`): every stored
document with the same `_id` is replaced by the new one. -/
def saveUser (users : List User) (u : User) : List User :=
  users.map (fun v => if v._id == u._id then u else v)

/-- The referrer details returned by the referral verification utility. -/
structure ReferrerDetails where
  referrerId : Nat
  referrerName : Option String
  referralCode : String
deriving Repr, DecidableEq

/-- Modelled from the spec: `verifyReferralCode` from the referral
utilities (not in the corpus) — verifies an input code against the
referral store and returns the details of the owning user, or nothing. -/
def verifyReferralCode (db : DB) (code : String) : Option ReferrerDetails :=
  (findCode db code).map (fun r => ⟨r.userId, r.userName, r.code⟩)

/-- Modelled from the spec: `generateReferralCode` from the referral
utilities (not in the corpus) — a pure generator of a fresh code for the
registrant; no claim depends on its exact value. -/
def generateReferralCode (db : DB) (name : String) : String :=
  name ++ toString db.codes.length

/-- Modelled from the spec: `updateReferralUsage` from the referral
utilities (not in the corpus) — records one usage event against the
given code; it touches only the referral store. -/
def updateReferralUsage (db : DB) (code : String) (uid : Nat)
    (uname : Option String) : DB :=
  { db with
    codes := db.codes.map (fun r =>
      if r.code == code then { r with usedBy := r.usedBy ++ [⟨uid, uname⟩] }
      else r) }

/-- An HTTP response: an error forwarded to the error middleware, a plain
success, or a success that also issues an authentication token
(`sendToken`). -/
inductive HResp where
  | err (status : Nat) (msg : String)
  | ok (status : Nat)
  | okToken (status : Nat) (userId : Nat)
deriving Repr, DecidableEq

/-- Whether a response issued an authentication token. -/
def HResp.hasToken : HResp → Bool
  | .okToken _ _ => true
  | _ => false

/-- Whether a response is an error. -/
def HResp.isErr : HResp → Bool
  | .err _ _ => true
  | _ => false

/-! ## Registration handler (`POST /create-user`) -/

/-- The registration request body plus the optional uploaded file
(its stored filename). -/
structure RegReq where
  name : Option String
  email : Option String
  password : Option String
  phoneNumber : Option String
  panCard : Option String
  gender : Option String
  inputReferralCode : Option String
  file : Option String
deriving Repr, DecidableEq

/-- Outcome of the registration handler: the resulting database, the
response, and whether the handler unlinked the uploaded file. -/
structure RegResult where
  db : DB
  response : HResp
  fileDeleted : Bool
deriving Repr, DecidableEq

/-- The required-fields check of the registration handler:
`!name || !password || !phoneNumber || !panCard || !gender`. -/
def missingRequired (r : RegReq) : Bool :=
  !truthy r.name || !truthy r.password || !truthy r.phoneNumber ||
    !truthy r.panCard || !truthy r.gender

/-- The referral-verification step of the registration handler:
`none` models the early 400 return on an invalid supplied code;
`some d` is the `referrerDetails` variable (itself `none` when no code
was supplied). -/
def refStep (db : DB) (r : RegReq) : Option (Option ReferrerDetails) :=
  if truthy r.inputReferralCode then
    match verifyReferralCode db (r.inputReferralCode.getD "") with
    | none => none
    | some d => some (some d)
  else some none

/-- Modelled from the spec: `User.create` applies the schema
normalizations of `src/backend/model/user.js` (not in the corpus): the
PAN card is uppercase-normalized and the password hashed on save. -/
def userCreate (uid : Nat) (r : RegReq) (fileUrl newCode : String)
    (referredBy : Option Nat) : User :=
  { _id := uid
    name := r.name
    email := r.email
    password := r.password.map hashPw
    phoneNumber := r.phoneNumber
    panCard := r.panCard.map jsToUpper
    gender := r.gender
    avatar := fileUrl
    referralCode := newCode
    referredBy := referredBy
    addresses := [] }

/-- The `POST /create-user` handler of
`src/backend/controller/user.js` (lines 16-134). -/
def createUser (db : DB) (r : RegReq) : RegResult :=
  if missingRequired r then
    ⟨db, .err 400 "Please provide all required fields!", r.file.isSome⟩
  else
    match refStep db r with
    | none => ⟨db, .err 400 "Invalid referral code!", false⟩
    | some referrerDetails =>
      let newCode := generateReferralCode db (r.name.getD "")
      if truthy r.email && (findUserByEmail db (r.email.getD "")).isSome then
        ⟨db, .err 400 "Email already exists", r.file.isSome⟩
      else if (findUserByPan db (jsToUpper (r.panCard.getD ""))).isSome then
        ⟨db, .err 400 "PAN card already registered", r.file.isSome⟩
      else
        let fileUrl := r.file.getD "defaultAvatar.png"
        let u := userCreate db.nextId r fileUrl newCode
          (referrerDetails.map (fun d => d.referrerId))
        let db1 : DB :=
          { users := db.users ++ [u]
            codes := db.codes ++ [⟨newCode, u._id, u.name, []⟩]
            nextId := db.nextId + 1 }
        let db2 := match referrerDetails with
          | some _ => updateReferralUsage db1 (r.inputReferralCode.getD "")
              u._id u.name
          | none => db1
        ⟨db2, .okToken 201 u._id, false⟩

/-! ## Login handler (`POST /login-user`) -/

/-- The `POST /login-user` handler (lines 137-166).  It does not change
the database. -/
def loginUser (db : DB) (email password : Option String) : HResp :=
  if !truthy email || !truthy password then
    .err 400 "Please provide the all fields!"
  else
    match findUserByEmail db (email.getD "") with
    | none => .err 400 "User doesn\x27t exists!"
    | some u =>
      if comparePassword password u.password then .okToken 201 u._id
      else .err 400 "Please provide the correct information"

/-! ## Apply-referral handler (`POST /apply-referral`) -/

/-- Outcome of a state-changing handler: resulting database and response. -/
structure HandlerResult where
  db : DB
  response : HResp
deriving Repr, DecidableEq

/-- The `POST /apply-referral` handler (lines 443-482). -/
def applyReferral (db : DB) (referralCode : String) (userId : Nat) :
    HandlerResult :=
  match findCode db referralCode with
  | none => ⟨db, .err 400 "Invalid referral code"⟩
  | some referral =>
    if referral.userId == userId then
      ⟨db, .err 400 "Cannot use your own referral code"⟩
    else
      match findById db userId with
      | none => ⟨db, .err 400 "User not found"⟩
      | some user =>
        if user.referredBy.isSome then
          ⟨db, .err 400 "You have already used a referral code"⟩
        else
          let user1 := { user with referredBy := some referral.userId }
          let db1 := { db with users := saveUser db.users user1 }
          let db2 := updateReferralUsage db1 referralCode userId none
          ⟨db2, .ok 200⟩

/-! ## Password-change handler (`PUT /update-user-password`) -/

/-- The password-change request body. -/
structure PassReq where
  oldPassword : Option String
  newPassword : Option String
  confirmPassword : Option String
deriving Repr, DecidableEq

/-- The `PUT /update-user-password` handler (lines 344-376), for the
authenticated user id `uid`.  A session whose user no longer resolves
makes the handler throw on the null document, surfaced as a 500. -/
def updateUserPassword (db : DB) (uid : Nat) (r : PassReq) : HandlerResult :=
  match findById db uid with
  | none => ⟨db, .err 500 "Cannot read properties of null"⟩
  | some user =>
    if !comparePassword r.oldPassword user.password then
      ⟨db, .err 400 "Old password is incorrect!"⟩
    else if r.newPassword != r.confirmPassword then
      ⟨db, .err 400 "Password doesn\x27t matched with each other!"⟩
    else
      let user1 := { user with password := r.newPassword.map hashPw }
      ⟨{ db with users := saveUser db.users user1 }, .ok 200⟩

/-! ## Address add/update handler (`PUT /update-user-addresses`) -/

/-- The address request body; every field may be absent. -/
structure AddrReq where
  _id : Option Nat
  addressType : Option String
  address1 : Option String
  city : Option String
deriving Repr, DecidableEq

/-- `Object.assign(existsAddress, req.body)`: fields present in the body
overwrite the stored address in place. -/
def mergeAddress (a : Address) (r : AddrReq) : Address :=
  { _id := r._id.getD a._id
    addressType := r.addressType.getD a.addressType
    address1 := r.address1.getD a.address1
    city := r.city.getD a.city }

/-- `user.addresses.push(req.body)`: the body cast to a new address
sub-document; the persistence layer assigns `freshId` when the body
carries no id. -/
def addrOfReq (r : AddrReq) (freshId : Nat) : Address :=
  { _id := r._id.getD freshId
    addressType := r.addressType.getD ""
    address1 := r.address1.getD ""
    city := r.city.getD "" }

/-- Replace the first element satisfying `p` by its image under `f`
(mutation through the reference returned by `Array.prototype.find`). -/
def updateFirst (p : α → Bool) (f : α → α) : List α → List α
  | [] => []
  | x :: xs => if p x then f x :: xs else x :: updateFirst p f xs

/-- The `PUT /update-user-addresses` handler (lines 277-314), for the
authenticated user id `uid`.  The duplicate-type rejection constructs
its error without a status code; the error middleware defaults it
to 500. -/
def updateUserAddresses (db : DB) (uid : Nat) (r : AddrReq)
    (freshId : Nat) : HandlerResult :=
  match findById db uid with
  | none => ⟨db, .err 500 "Cannot read properties of null"⟩
  | some user =>
    match user.addresses.find? (fun a => some a.addressType == r.addressType) with
    | some _ =>
      ⟨db, .err 500 (r.addressType.getD "undefined" ++ " address already exists")⟩
    | none =>
      match user.addresses.find? (fun a => some a._id == r._id) with
      | some _ =>
        let user1 := { user with
          addresses := updateFirst (fun a => some a._id == r._id)
            (fun a => mergeAddress a r) user.addresses }
        ⟨{ db with users := saveUser db.users user1 }, .ok 200⟩
      | none =>
        let user1 := { user with
          addresses := user.addresses ++ [addrOfReq r freshId] }
        ⟨{ db with users := saveUser db.users user1 }, .ok 200⟩

/-! ## Public user lookup (`GET /user-info/:id`) -/

/-- The JSON body of the public user-lookup response. -/
structure UserInfoResp where
  status : Nat
  success : Bool
  user : Option User
deriving Repr, DecidableEq

/-- The `GET /user-info/:id` handler (lines 379-393): always status 201
and `success: true`, with the (possibly null) lookup result. -/
def getUserInfo (db : DB) (uid : Nat) : UserInfoResp :=
  { status := 201, success := true, user := findById db uid }

/-! ## Operation sequences for the referral-attribution invariant -/

/-- One state-changing operation among those that can touch
`referredBy`: a registration or an apply-referral request. -/
inductive Op where
  | register (r : RegReq)
  | apply (code : String) (userId : Nat)

/-- The database after one operation. -/
def stepDB (db : DB) : Op → DB
  | .register r => (createUser db r).db
  | .apply c uid => (applyReferral db c uid).db

/-- The database after a sequence of operations. -/
def runOps (db : DB) : List Op → DB
  | [] => db
  | op :: ops => runOps (stepDB db op) ops

/-! ## Concrete data used by the witness theorems -/

def addrHome : Address := ⟨10, "home", "12 Lane", "Pune"⟩

def uW1 : User :=
  { _id := 1, name := some "Asha", email := some "asha@example.com",
    password := some (hashPw "pw1"), phoneNumber := some "9111",
    panCard := some "ABCDE1234F", gender := some "F",
    avatar := "defaultAvatar.png", referralCode := "RCA",
    referredBy := none, addresses := [addrHome] }

def uW2 : User :=
  { _id := 2, name := some "Bela", email := some "bela@example.com",
    password := some (hashPw "pw2"), phoneNumber := some "9222",
    panCard := some "FGHIJ5678K", gender := some "F",
    avatar := "defaultAvatar.png", referralCode := "RCB",
    referredBy := some 1, addresses := [] }

def dbW : DB :=
  { users := [uW1, uW2],
    codes := [⟨"RCA", 1, some "Asha", []⟩, ⟨"RCB", 2, some "Bela", []⟩],
    nextId := 3 }

def dbEmpty : DB := ⟨[], [], 0⟩

def reqC3 : RegReq :=
  { name := some "Cory", email := none, password := some "pw3",
    phoneNumber := some "9333", panCard := some "abcde9999z",
    gender := some "M", inputReferralCode := some "ZZZ",
    file := some "photo.png" }

def reqC4 : RegReq :=
  { name := some "Dev", email := some "dev@example.com",
    password := some "pw4", phoneNumber := some "9444",
    panCard := some "abcde1234f", gender := some "M",
    inputReferralCode := none, file := some "dev.png" }

def reqC6 : RegReq :=
  { name := some "Eve", email := some "eve@example.com",
    password := some "pw5", phoneNumber := some "9555",
    panCard := some "KLMNO1111P", gender := none,
    inputReferralCode := none, file := some "eve.png" }

def passC7 : PassReq := ⟨some "pw1", some "npw", some "npw"⟩

def passC10 : PassReq := ⟨some "pw1", none, none⟩

def addrReqC5 : AddrReq := ⟨some 10, some "work", some "90 Road", none⟩

/-! ## Helper lemmas -/

theorem find?_append_some {α : Type} {p : α → Bool} {l₁ l₂ : List α} {x : α}
    (h : l₁.find? p = some x) : (l₁ ++ l₂).find? p = some x := by
  induction l₁ with
  | nil => simp [List.find?] at h
  | cons y ys ih =>
    cases hy : p y with
    | true =>
      simp only [List.find?, hy] at h ⊢
      exact h
    | false =>
      simp only [List.cons_append, List.find?, hy] at h ⊢
      exact ih h

theorem find?_map_comm {α : Type} {p : α → Bool} {g : α → α}
    (hp : ∀ y, p (g y) = p y) (l : List α) :
    (l.map g).find? p = (l.find? p).map g := by
  induction l with
  | nil => rfl
  | cons x xs ih =>
    cases hx : p x with
    | true => simp [List.find?, hp x, hx]
    | false => simp only [List.map_cons, List.find?, hp x, hx, ih]

theorem updateFirst_length {α : Type} (p : α → Bool) (f : α → α) (l : List α) :
    (updateFirst p f l).length = l.length := by
  induction l with
  | nil => rfl
  | cons x xs ih =>
    by_cases hx : p x = true
    · simp [updateFirst, hx]
    · simp [updateFirst, hx, ih]

theorem saveUser_find_self (users : List User) (uid : Nat) (u u1 : User)
    (hu : users.find? (fun v => v._id == uid) = some u) (hid : u1._id = u._id) :
    (saveUser users u1).find? (fun v => v._id == uid) = some u1 := by
  have hpu := List.find?_some hu
  have huid : u._id = uid := by simpa using hpu
  have hid1 : u1._id = uid := hid.trans huid
  have hp : ∀ v : User,
      ((if v._id == u1._id then u1 else v)._id == uid) = (v._id == uid) := by
    intro v
    by_cases hv : v._id = u1._id
    · simp [hv, hid1]
    · simp [hv]
  have := find?_map_comm (p := fun v : User => v._id == uid)
    (g := fun v => if v._id == u1._id then u1 else v) hp users
  rw [saveUser, this, hu]
  simp [huid, hid1]

theorem saveUser_find_other (users : List User) (uid : Nat) (u u1 : User)
    (hu : users.find? (fun v => v._id == uid) = some u) (hne : u1._id ≠ uid) :
    (saveUser users u1).find? (fun v => v._id == uid) = some u := by
  have hpu := List.find?_some hu
  have huid : u._id = uid := by simpa using hpu
  have hp : ∀ v : User,
      ((if v._id == u1._id then u1 else v)._id == uid) = (v._id == uid) := by
    intro v
    by_cases hv : v._id = u1._id
    · simp [hv, hne, Ne.symm hne]
    · simp [hv]
  have := find?_map_comm (p := fun v : User => v._id == uid)
    (g := fun v => if v._id == u1._id then u1 else v) hp users
  rw [saveUser, this, hu]
  have : u._id ≠ u1._id := by rw [huid]; exact Ne.symm hne
  simp [this]

theorem createUser_db_users (db : DB) (r : RegReq) :
    (createUser db r).db.users = db.users ∨
      ∃ u, (createUser db r).db.users = db.users ++ [u] := by
  unfold createUser
  split
  · exact Or.inl rfl
  · split
    · exact Or.inl rfl
    · dsimp only
      split
      · exact Or.inl rfl
      · split
        · exact Or.inl rfl
        · right
          split
          · exact ⟨_, rfl⟩
          · exact ⟨_, rfl⟩

theorem applyReferral_pres (db : DB) (code : String) (t uid rid : Nat) (u : User)
    (hu : findById db uid = some u) (hr : u.referredBy = some rid) :
    ∃ u', findById (applyReferral db code t).db uid = some u' ∧
      u'.referredBy = some rid := by
  unfold applyReferral
  cases hc : findCode db code with
  | none => exact ⟨u, hu, hr⟩
  | some referral =>
    dsimp only
    split
    · exact ⟨u, hu, hr⟩
    · cases hw : findById db t with
      | none => exact ⟨u, hu, hr⟩
      | some w =>
        dsimp only
        split
        · exact ⟨u, hu, hr⟩
        · rename_i hwnone
          by_cases ht : t = uid
          · subst ht
            rw [hu] at hw
            cases hw
            rw [hr] at hwnone
            simp at hwnone
          · have hw' := List.find?_some hw
            have hwt : w._id = t := by simpa [findById] using hw'
            refine ⟨u, ?_, hr⟩
            show findById (updateReferralUsage _ _ _ _) uid = some u
            rw [findById, updateReferralUsage]
            dsimp only
            exact saveUser_find_other db.users uid u _ hu (by simpa [hwt] using ht)

theorem stepDB_pres (db : DB) (op : Op) (uid rid : Nat) (u : User)
    (hu : findById db uid = some u) (hr : u.referredBy = some rid) :
    ∃ u', findById (stepDB db op) uid = some u' ∧ u'.referredBy = some rid := by
  cases op with
  | register r =>
    rcases createUser_db_users db r with h | ⟨nu, h⟩
    · exact ⟨u, by rw [stepDB, findById, h]; exact hu, hr⟩
    · refine ⟨u, ?_, hr⟩
      rw [stepDB, findById, h]
      exact find?_append_some hu
  | apply c t => exact applyReferral_pres db c t uid rid u hu hr

theorem runOps_pres (uid rid : Nat) (ops : List Op) :
    ∀ (db : DB) (u : User), findById db uid = some u →
      u.referredBy = some rid →
      ∃ u', findById (runOps db ops) uid = some u' ∧
        u'.referredBy = some rid := by
  induction ops with
  | nil => intro db u hu hr; exact ⟨u, hu, hr⟩
  | cons op ops ih =>
    intro db u hu hr
    obtain ⟨u1, hu1, hr1⟩ := stepDB_pres db op uid rid u hu hr
    exact ih (stepDB db op) u1 hu1 hr1

/-- C1: once the referredBy field of a user is non-null it can never change again:
every apply-referral request targeting that user fails with a 400 error
and leaves the database unchanged, and across any sequence of
registration and apply-referral operations the field keeps its value. -/
theorem referredBy_set_at_most_once (db : DB) (uid rid : Nat) (u : User)
    (hu : findById db uid = some u) (hr : u.referredBy = some rid) :
    (∀ code, ∃ m, applyReferral db code uid = ⟨db, .err 400 m⟩) ∧
    (∀ ops, ∃ u', findById (runOps db ops) uid = some u' ∧
      u'.referredBy = some rid) := by
  constructor
  · intro code
    unfold applyReferral
    cases hc : findCode db code with
    | none => exact ⟨_, rfl⟩
    | some referral =>
      dsimp only
      split
      · exact ⟨_, rfl⟩
      · rw [hu]
        dsimp only
        rw [hr]
        refine ⟨"You have already used a referral code", by simp⟩
  · intro ops
    exact runOps_pres uid rid ops db u hu hr

theorem updateReferralUsage_users (db : DB) (c : String) (i : Nat)
    (n : Option String) : (updateReferralUsage db c i n).users = db.users := rfl

/-- C2: an apply-referral request whose code resolves to a referral
record owned by the target user itself fails with a 400 error and
leaves the database unchanged. -/
theorem applyReferral_self_rejected (db : DB) (code : String) (uid : Nat)
    (referral : RefCode) (hc : findCode db code = some referral)
    (hself : referral.userId = uid) :
    applyReferral db code uid =
      ⟨db, .err 400 "Cannot use your own referral code"⟩ := by
  unfold applyReferral
  rw [hc]
  dsimp only
  simp [hself]

/-- C6: a registration request missing a required field is answered
with a 400 error, the uploaded file (if any) is unlinked, and the
database is unchanged. -/
theorem createUser_missing_required (db : DB) (r : RegReq)
    (h : r.name = none ∨ r.password = none ∨ r.phoneNumber = none ∨
      r.panCard = none ∨ r.gender = none) :
    createUser db r =
      ⟨db, .err 400 "Please provide all required fields!", r.file.isSome⟩ := by
  have hm : missingRequired r = true := by
    rcases h with h | h | h | h | h <;> simp [missingRequired, truthy, h]
  simp [createUser, hm]

/-- C9: a public user lookup for an id that resolves to no user is not
an error: the response has status 201, success true and a null user. -/
theorem getUserInfo_missing_user (db : DB) (uid : Nat)
    (h : findById db uid = none) :
    getUserInfo db uid = ⟨201, true, none⟩ := by
  simp [getUserInfo, h]

/-- C3 (amended): a registration whose supplied referral code fails
verification is answered with a 400 error and the database is
unchanged, but the uploaded file is NOT deleted in this branch. -/
theorem createUser_invalid_referral (db : DB) (r : RegReq)
    (hm : missingRequired r = false)
    (hcode : truthy r.inputReferralCode = true)
    (hv : verifyReferralCode db (r.inputReferralCode.getD "") = none) :
    createUser db r = ⟨db, .err 400 "Invalid referral code!", false⟩ := by
  have hrs : refStep db r = none := by simp [refStep, hcode, hv]
  simp [createUser, hm, hrs]

/-- C4: the PAN duplicate lookup uses the uppercased PAN; a duplicate is
answered with a 400 error, the uploaded file deleted and no record
created; on success the created user stores the uppercased PAN. -/
theorem createUser_pan_uppercase (db : DB) (r : RegReq) (pan : String)
    (hpan : r.panCard = some pan) (hm : missingRequired r = false)
    (rd : Option ReferrerDetails) (hrs : refStep db r = some rd)
    (hem : (truthy r.email && (findUserByEmail db (r.email.getD "")).isSome)
      = false) :
    ((findUserByPan db (jsToUpper pan)).isSome = true →
      createUser db r =
        ⟨db, .err 400 "PAN card already registered", r.file.isSome⟩) ∧
    (findUserByPan db (jsToUpper pan) = none →
      (createUser db r).response = .okToken 201 db.nextId ∧
      ∃ u, (createUser db r).db.users = db.users ++ [u] ∧
        u.panCard = some (jsToUpper pan) ∧ u._id = db.nextId) := by
  constructor
  · intro hdup
    simp [createUser, hm, hrs, hem, hpan, hdup]
  · intro hnone
    constructor
    · simp [createUser, hm, hrs, hem, hpan, hnone]
      cases rd <;> rfl
    · refine ⟨userCreate db.nextId r (r.file.getD "defaultAvatar.png")
        (generateReferralCode db (r.name.getD ""))
        (rd.map (fun d => d.referrerId)), ?_, ?_, rfl⟩
      · simp [createUser, hm, hrs, hem, hpan, hnone]
        cases rd <;> rfl
      · simp [userCreate, hpan]

/-- C8: login fails with 400 when no user matches the email; fails with
400 and no token on a wrong password; issues a token with status 201 on
matching credentials. -/
theorem loginUser_spec (db : DB) (e p : String) (he : e ≠ "") (hp : p ≠ "") :
    (findUserByEmail db e = none →
      loginUser db (some e) (some p) = .err 400 "User doesn\x27t exists!") ∧
    (∀ u, findUserByEmail db e = some u →
      comparePassword (some p) u.password = false →
      loginUser db (some e) (some p) =
        .err 400 "Please provide the correct information" ∧
      (loginUser db (some e) (some p)).hasToken = false) ∧
    (∀ u, findUserByEmail db e = some u →
      comparePassword (some p) u.password = true →
      loginUser db (some e) (some p) = .okToken 201 u._id) := by
  have he' : e.isEmpty = false :=
    Bool.eq_false_iff.mpr (fun hc => he ((String.isEmpty_iff e).mp hc))
  have hp' : p.isEmpty = false :=
    Bool.eq_false_iff.mpr (fun hc => hp ((String.isEmpty_iff p).mp hc))
  refine ⟨?_, ?_, ?_⟩
  · intro hnone
    simp [loginUser, truthy, he', hp', hnone]
  · intro u hfind hcmp
    refine ⟨?_, ?_⟩
    · simp [loginUser, truthy, he', hp', hfind, hcmp]
    · simp [loginUser, truthy, he', hp', hfind, hcmp, HResp.hasToken]
  · intro u hfind hcmp
    simp [loginUser, truthy, he', hp', hfind, hcmp]

/-- C7: a password change with a wrong old password fails with 400 and
changes nothing; a mismatched new/confirm pair fails with 400 and
changes nothing; a correct old password with matching pair persists the
new password. -/
theorem updateUserPassword_spec (db : DB) (uid : Nat) (user : User)
    (r : PassReq) (hu : findById db uid = some user) :
    (r.oldPassword.isSome = true →
      comparePassword r.oldPassword user.password = false →
      updateUserPassword db uid r =
        ⟨db, .err 400 "Old password is incorrect!"⟩) ∧
    (comparePassword r.oldPassword user.password = true →
      r.newPassword ≠ r.confirmPassword →
      updateUserPassword db uid r =
        ⟨db, .err 400 "Password doesn\x27t matched with each other!"⟩) ∧
    (comparePassword r.oldPassword user.password = true →
      r.newPassword = r.confirmPassword →
      (updateUserPassword db uid r).response = .ok 200 ∧
      findById (updateUserPassword db uid r).db uid =
        some { user with password := r.newPassword.map hashPw }) := by
  refine ⟨?_, ?_, ?_⟩
  · intro _ hcmp
    simp [updateUserPassword, hu, hcmp]
  · intro hcmp hne
    have hbe : (r.newPassword != r.confirmPassword) = true := bne_iff_ne.mpr hne
    simp [updateUserPassword, hu, hcmp, hbe]
  · intro hcmp heq
    have hbe : (r.newPassword != r.confirmPassword) = false := by
      simp [bne, heq]
    refine ⟨?_, ?_⟩
    · simp [updateUserPassword, hu, hcmp, hbe]
    · simp only [updateUserPassword, hu, hcmp, hbe]
      simp only [Bool.not_true, Bool.false_eq_true, if_false, bne, beq_self_eq_true]
      exact saveUser_find_self db.users uid user _ hu rfl

/-- C10: when the old password matches and both newPassword and
confirmPassword are absent, the equality check passes and the absent
value is persisted as the new password of the user. -/
theorem updateUserPassword_absent_new (db : DB) (uid : Nat) (user : User)
    (r : PassReq) (hu : findById db uid = some user)
    (hcmp : comparePassword r.oldPassword user.password = true)
    (hn : r.newPassword = none) (hcf : r.confirmPassword = none) :
    (updateUserPassword db uid r).response = .ok 200 ∧
    findById (updateUserPassword db uid r).db uid =
      some { user with password := none } := by
  have hbe : (r.newPassword != r.confirmPassword) = false := by
    simp [bne, hn, hcf]
  refine ⟨?_, ?_⟩
  · simp [updateUserPassword, hu, hcmp, hbe]
  · simp only [updateUserPassword, hu, hcmp, hbe]
    simp only [Bool.not_true, Bool.false_eq_true, if_false]
    have := saveUser_find_self db.users uid user
      { user with password := r.newPassword.map hashPw } hu rfl
    simpa [hn] using this

/-- C5: adding an address whose addressType already exists is rejected
with an error and changes nothing; otherwise a body whose id matches an
existing address merges that address in place without growing the list;
otherwise the body is appended as a new address. -/
theorem updateUserAddresses_spec (db : DB) (uid : Nat) (user : User)
    (r : AddrReq) (fid : Nat) (hu : findById db uid = some user) :
    ((user.addresses.find? (fun a => some a.addressType == r.addressType)).isSome
        = true →
      (updateUserAddresses db uid r fid).db = db ∧
      (updateUserAddresses db uid r fid).response.isErr = true) ∧
    (user.addresses.find? (fun a => some a.addressType == r.addressType) = none →
      (user.addresses.find? (fun a => some a._id == r._id)).isSome = true →
      (updateUserAddresses db uid r fid).response = .ok 200 ∧
      ∃ u', findById (updateUserAddresses db uid r fid).db uid = some u' ∧
        u'.addresses = updateFirst (fun a => some a._id == r._id)
          (fun a => mergeAddress a r) user.addresses ∧
        u'.addresses.length = user.addresses.length) ∧
    (user.addresses.find? (fun a => some a.addressType == r.addressType) = none →
      user.addresses.find? (fun a => some a._id == r._id) = none →
      (updateUserAddresses db uid r fid).response = .ok 200 ∧
      ∃ u', findById (updateUserAddresses db uid r fid).db uid = some u' ∧
        u'.addresses = user.addresses ++ [addrOfReq r fid]) := by
  refine ⟨?_, ?_, ?_⟩
  · intro hdup
    obtain ⟨a, ha⟩ := Option.isSome_iff_exists.mp hdup
    constructor
    · simp [updateUserAddresses, hu, ha]
    · simp [updateUserAddresses, hu, ha, HResp.isErr]
  · intro hnodup hid
    obtain ⟨a0, ha0⟩ := Option.isSome_iff_exists.mp hid
    refine ⟨?_, ?_⟩
    · simp [updateUserAddresses, hu, hnodup, ha0]
    · refine ⟨{ user with
        addresses := updateFirst (fun a => some a._id == r._id)
          (fun a => mergeAddress a r) user.addresses }, ?_, rfl,
        updateFirst_length _ _ _⟩
      simp only [updateUserAddresses, hu, hnodup, ha0]
      exact saveUser_find_self db.users uid user _ hu rfl
  · intro hnodup hnoid
    refine ⟨?_, ?_⟩
    · simp [updateUserAddresses, hu, hnodup, hnoid]
    · refine ⟨{ user with
        addresses := user.addresses ++ [addrOfReq r fid] }, ?_, rfl⟩
      simp only [updateUserAddresses, hu, hnodup, hnoid]
      exact saveUser_find_self db.users uid user _ hu rfl

/-- C1 witness: user 2 of the concrete database already has
referredBy = 1; applying a further code fails and a concrete operation
sequence leaves the link intact. -/
theorem referredBy_set_at_most_once_witness :
    (∃ m, applyReferral dbW "RCA" 2 = ⟨dbW, .err 400 m⟩) ∧
    (∃ u', findById (runOps dbW [Op.apply "RCA" 2]) 2 = some u' ∧
      u'.referredBy = some 1) := by
  have h := referredBy_set_at_most_once dbW 2 1 uW2 (by decide) rfl
  exact ⟨h.1 "RCA", h.2 [Op.apply "RCA" 2]⟩

/-- C2 witness: user 1 applying their own code RCA is rejected. -/
theorem applyReferral_self_rejected_witness :
    applyReferral dbW "RCA" 1 =
      ⟨dbW, .err 400 "Cannot use your own referral code"⟩ :=
  applyReferral_self_rejected dbW "RCA" 1 ⟨"RCA", 1, some "Asha", []⟩
    (by decide) rfl

/-- C3 counterexample: a concrete registration with an uploaded file and
an unresolvable referral code gets a 400 but the file is not deleted. -/
theorem createUser_invalid_referral_counterexample :
    verifyReferralCode dbEmpty (reqC3.inputReferralCode.getD "") = none ∧
    reqC3.file.isSome = true ∧
    (createUser dbEmpty reqC3).response = .err 400 "Invalid referral code!" ∧
    (createUser dbEmpty reqC3).fileDeleted = false := by
  decide

/-- C3 witness for the amended claim. -/
theorem createUser_invalid_referral_witness :
    createUser dbEmpty reqC3 =
      ⟨dbEmpty, .err 400 "Invalid referral code!", false⟩ :=
  createUser_invalid_referral dbEmpty reqC3 (by decide) (by decide) (by decide)

/-- C4 witness: registering with PAN written in lowercase collides with
the stored uppercase PAN of user 1. -/
theorem createUser_pan_uppercase_witness :
    createUser dbW reqC4 =
      ⟨dbW, .err 400 "PAN card already registered", reqC4.file.isSome⟩ := by
  have h := createUser_pan_uppercase dbW reqC4 "abcde1234f" rfl (by decide)
    none (by decide) (by decide)
  exact h.1 (by decide)

/-- C5 witness: a body with a fresh addressType whose id matches the
stored home address merges it in place without growing the list. -/
theorem updateUserAddresses_spec_witness :
    (updateUserAddresses dbW 1 addrReqC5 99).response = .ok 200 ∧
    ∃ u', findById (updateUserAddresses dbW 1 addrReqC5 99).db 1 = some u' ∧
      u'.addresses = updateFirst (fun a => some a._id == addrReqC5._id)
        (fun a => mergeAddress a addrReqC5) uW1.addresses ∧
      u'.addresses.length = uW1.addresses.length := by
  have h := updateUserAddresses_spec dbW 1 uW1 addrReqC5 99 (by decide)
  exact h.2.1 (by decide) (by decide)

/-- C6 witness: a registration missing gender. -/
theorem createUser_missing_required_witness :
    createUser dbW reqC6 =
      ⟨dbW, .err 400 "Please provide all required fields!",
        reqC6.file.isSome⟩ :=
  createUser_missing_required dbW reqC6
    (Or.inr (Or.inr (Or.inr (Or.inr rfl))))

/-- C7 witness: user 1 changes pw1 to npw with matching confirm. -/
theorem updateUserPassword_spec_witness :
    (updateUserPassword dbW 1 passC7).response = .ok 200 ∧
    findById (updateUserPassword dbW 1 passC7).db 1 =
      some { uW1 with password := passC7.newPassword.map hashPw } := by
  have h := updateUserPassword_spec dbW 1 uW1 passC7 (by decide)
  exact h.2.2 (by decide) rfl

/-- C8 witness: user 1 logs in with the correct credentials. -/
theorem loginUser_spec_witness :
    loginUser dbW (some "asha@example.com") (some "pw1") =
      .okToken 201 uW1._id := by
  have h := loginUser_spec dbW "asha@example.com" "pw1" (by decide) (by decide)
  exact h.2.2 uW1 (by decide) (by decide)

/-- C9 witness: id 99 resolves to no user. -/
theorem getUserInfo_missing_user_witness :
    getUserInfo dbW 99 = ⟨201, true, none⟩ :=
  getUserInfo_missing_user dbW 99 (by decide)

/-- C10 witness: user 1 sends a change request with no newPassword and
no confirmPassword; the absent value is persisted. -/
theorem updateUserPassword_absent_new_witness :
    (updateUserPassword dbW 1 passC10).response = .ok 200 ∧
    findById (updateUserPassword dbW 1 passC10).db 1 =
      some { uW1 with password := none } :=
  updateUserPassword_absent_new dbW 1 uW1 passC10 (by decide) (by decide)
    rfl rfl

end UserController
